import Mathlib

/-!
Shallow embedding of the job-orchestration core of the YushuRobotPPT2IMG
repository (PPT-to-image conversion servers), together with proofs about it.

Source files embedded here:
* `websocket_server_v2.py` — SocketIO server with admission control over a
  shared `tasks` dict guarded by `tasks_lock` (namespace `V2`);
* `v1/websocket_server.py` and `v1/api.py` — older SocketIO variant
  (namespace `V1`);
* `api.py` — Flask HTTP server with callback delivery and startup recovery
  (namespace `Api`);
* `pptx_to_images.py` and `pptx_to_images_minio.py` — conversion pipeline
  result dataclasses and the progress-callback schedule (namespace `Pipe`).

Python dicts are modelled as association lists; each block executed under
`tasks_lock` becomes one atomic store operation; opaque identifiers (uuid4
strings) are modelled as `Nat`; wall-clock timestamps as `Nat`.
-/

namespace PPT2IMG

/-- Job status values used across the server variants: `created`/`queued`
(`websocket_server_v2.py`), `uploaded` (`v1`), `pending` (`api.py`,
`websocket_server.py`), and the shared `processing`/`completed`/`failed`. -/
inductive Status
  | created
  | uploaded
  | pending
  | queued
  | processing
  | completed
  | failed
deriving DecidableEq, Repr

/-- A status counted by the v2 admission check (`websocket_server_v2.py:90`):
`t['status'] in ['queued', 'processing']`. -/
def Status.isActive : Status → Bool
  | .queued => true
  | .processing => true
  | _ => false

/-- Terminal statuses per the spec's state machine. -/
def Status.isTerminal : Status → Bool
  | .completed => true
  | .failed => true
  | _ => false

/-- Position of a status along the documented forward order
`created/uploaded/pending → queued → processing → {completed | failed}`;
both terminal states share the top rank. -/
def Status.rank : Status → Nat
  | .created => 0
  | .uploaded => 0
  | .pending => 0
  | .queued => 1
  | .processing => 2
  | .completed => 3
  | .failed => 3

namespace Pipe

/-- `pptx_to_images.ImageInfo` dataclass. -/
structure ImageInfo where
  slide_number : Nat
  filename : String
  filepath : String
deriving DecidableEq, Repr

/-- `pptx_to_images.PPTConversionResult` dataclass: returned (never raised)
both on success (`success=True`) and on conversion failure (`success=False`,
`error` set, lines 179-192 of `pptx_to_images.py`). -/
structure PPTConversionResult where
  success : Bool
  total_slides : Nat
  converted_slides : Nat
  image_info_list : List ImageInfo
  pptx_path : String
  output_dir : String
  width : Nat
  height : Nat
  error : Option String
deriving DecidableEq, Repr

/-- `pptx_to_images_minio.UploadResult` dataclass. -/
structure UploadResult where
  slide_number : Nat
  filename : String
  object_name : String
  size : Option Nat
  download_url : Option String
  error : Option String
deriving DecidableEq, Repr

/-- `pptx_to_images_minio.PPTMinioResult` dataclass (lines 38-64): the
return value of `pptx_url_to_minio_images`. Note its fields: there is no
`success` and no `error` field, and the class defines no `__getitem__`. -/
structure PPTMinioResult where
  ppt_url : String
  ppt_name : String
  bucket_name : String
  total_slides : Nat
  successful_uploads : Nat
  failed_uploads : Nat
  upload_results : List UploadResult
  download_urls : List String
  temp_dir : Option String
deriving DecidableEq, Repr

/-- CPython error text raised by evaluating `result['success']` when
`result` is a `PPTMinioResult`: dataclasses do not implement
`__getitem__`, so subscripting raises `TypeError` for every key. -/
def pptMinioSubscriptError : String := "'PPTMinioResult' object is not subscriptable"

/-- Python subscript `r[key]` applied to the `PPTMinioResult` dataclass
(as `process_ppt_task` does at `websocket_server_v2.py:227` with
`result['success']`): always raises `TypeError`. -/
def PPTMinioResult.getItem (_r : PPTMinioResult) (_key : String) : Except String Bool :=
  Except.error pptMinioSubscriptError

/-- Progress percentages handed to `progress_callback` by
`pptx_url_to_minio_images` when converting a deck whose upload loop runs
`n` times (lines 115, 126, 131, 145, 150, 194-195 and 203 of
`pptx_to_images_minio.py`): 10, 30, 40, 60, 70, then
`70 + int((i + 1) / n * 25)` for each uploaded image `i`, then 100.
Python `int()` truncation of the non-negative float equals `Nat` floor
division. -/
def minioProgressSeq (n : Nat) : List Nat :=
  [10, 30, 40, 60, 70] ++ (List.range n).map (fun i => 70 + ((i + 1) * 25) / n) ++ [100]

end Pipe

namespace V2

/-- One entry of the v2 `tasks` dict (`websocket_server_v2.py:72-86`,
`task_data`). Every key is present from creation — in particular
`progress` is set to `0` while the task is still `created`. -/
structure Task where
  uuid : Nat
  ppt_url : String
  ppt_name : String
  width : Nat
  height : Nat
  bucket_name : String
  status : Status
  progress : Nat
  total_slides : Nat
  processed_slides : Nat
  download_urls : List String
  error : Option String
deriving DecidableEq, Repr

/-- `MAX_CONCURRENT_TASKS = 5` (`websocket_server_v2.py:25`). -/
def MAX_CONCURRENT_TASKS : Nat := 5

/-- The v2 `tasks` dict, as an association list keyed by `Task.uuid`. -/
abbrev Store := List Task

/-- The live count computed at `websocket_server_v2.py:90`:
`sum(1 for t in tasks.values() if t['status'] in ['queued', 'processing'])`. -/
def countActive (ts : Store) : Nat :=
  (ts.filter (fun t => t.status.isActive)).length

/-- First entry with the given uuid (Python `tasks[uuid]` read). -/
def findTask (ts : Store) (u : Nat) : Option Task :=
  ts.find? (fun t => t.uuid == u)

/-- Python dict assignment `tasks[uuid] = td` for a fresh record: replaces
any existing entry with that key. -/
def insertTask (ts : Store) (td : Task) : Store :=
  td :: ts.filter (fun t => ¬ t.uuid == td.uuid)

/-- In-place mutation of the entry with the given uuid (Python mutates the
single dict value object). -/
def updateTask (ts : Store) (u : Nat) (f : Task → Task) : Store :=
  match ts with
  | [] => []
  | t :: rest => if t.uuid == u then f t :: rest else t :: updateTask rest u f

/-- The `task_data` dict built at `websocket_server_v2.py:72-86`, before
admission: status `created`, `progress` 0, empty results. -/
def newTaskData (uuid : Nat) (ppt_url ppt_name : String) (width height : Nat)
    (bucket_name : String) : Task :=
  { uuid := uuid
    ppt_url := ppt_url
    ppt_name := ppt_name
    width := width
    height := height
    bucket_name := bucket_name
    status := .created
    progress := 0
    total_slides := 0
    processed_slides := 0
    download_urls := []
    error := none }

/-- Outcome of a submission as observed by the submitting client. -/
inductive SubmitOutcome
  | admitted (uuid : Nat)
  | rejected (reason : String)
deriving DecidableEq, Repr

/-- The rejection text emitted at `websocket_server_v2.py:92`. -/
def busyMessage (n : Nat) : String :=
  s!"服务器繁忙，当前有 {n} 个任务在处理中，请稍后重试"

/-- The admission block of `handle_start_ppt_processing`
(`websocket_server_v2.py:88-98`), executed atomically under `tasks_lock`:
count jobs in `{queued, processing}`; if the count has reached
`MAX_CONCURRENT_TASKS`, emit the busy error and return without storing the
new record; otherwise store it and mark it `queued`. -/
def handle_start_ppt_processing (ts : Store) (uuid : Nat) (ppt_url ppt_name : String)
    (width height : Nat) (bucket_name : String) : Store × SubmitOutcome :=
  let task_data := newTaskData uuid ppt_url ppt_name width height bucket_name
  let active_tasks := countActive ts
  if MAX_CONCURRENT_TASKS ≤ active_tasks then
    (ts, .rejected (busyMessage active_tasks))
  else
    (insertTask ts { task_data with status := .queued }, .admitted uuid)

/-- The first locked block of the v2 worker (`websocket_server_v2.py:200-203`):
`task['status'] = 'processing'`. -/
def startProcessing (ts : Store) (u : Nat) : Store :=
  updateTask ts u (fun t => { t with status := .processing })

/-- The success-branch record update (`websocket_server_v2.py:229-235`):
completed, slide counts and download urls copied from the pipeline result,
progress forced to 100. -/
def completeTask (r : Pipe.PPTMinioResult) (t : Task) : Task :=
  { t with
    status := .completed
    total_slides := r.total_slides
    processed_slides := r.successful_uploads
    progress := 100
    download_urls := r.download_urls }

/-- The failure record update (`websocket_server_v2.py:252-254` and 268-271):
status `failed`, error text stored, every other field untouched. -/
def failTask (e : Option String) (t : Task) : Task :=
  { t with status := .failed, error := e }

/-- Outcome of `asyncio.run(pptx_url_to_minio_images(...))` as seen by the
v2 worker: either an exception propagates or a `PPTMinioResult` returns. -/
inductive PipeOutcome
  | raises (msg : String)
  | returns (r : Pipe.PPTMinioResult)
deriving DecidableEq, Repr

/-- Record states traversed by one run of the v2 worker
`process_ppt_task` (`websocket_server_v2.py:197-280`) on the task record
`t`, in order. The dispatch `if result['success']:` at line 227 subscripts
the returned dataclass, which raises `TypeError`
(`Pipe.PPTMinioResult.getItem`), so the success branch (lines 229-248) and
the `result['error']` branch (lines 252-264) are unreachable; the raised
`TypeError` lands in the `except` handler at lines 266-271. The unreachable
branches are still translated as written. -/
def process_ppt_task (t : Task) (outcome : PipeOutcome) : List Task :=
  let t1 := { t with status := .processing }
  t1 :: match outcome with
  | .raises e => [failTask (some e) t1]
  | .returns r =>
    match r.getItem "success" with
    | .ok b =>
      if b then [completeTask r t1]
      else [failTask none t1]
    | .error e => [failTask (some e) t1]

/-- `task_done_callback` (`websocket_server_v2.py:119-136`): if the worker
future raised, unconditionally overwrite the record with `failed` and the
error text — there is no terminal-state guard. -/
def task_done_callback (ts : Store) (u : Nat) (futureError : Option String) : Store :=
  match futureError with
  | none => ts
  | some e =>
    if (findTask ts u).isSome then updateTask ts u (failTask (some e)) else ts

/-- One atomic store operation of the v2 server, i.e. one block executed
under `tasks_lock`. The side conditions record the program order: the
worker for a uuid is spawned exactly once, right after admission marks it
`queued`, and performs `startProcessing` first and exactly one terminal
update afterwards (`process_ppt_task` above; `task_done_callback` fires
only when the worker future raised, which its blanket `except` prevents). -/
inductive Step : Store → Store → Prop
  | submit (ts : Store) (uuid : Nat) (ppt_url ppt_name : String)
      (width height : Nat) (bucket_name : String) :
      Step ts (handle_start_ppt_processing ts uuid ppt_url ppt_name width height bucket_name).1
  | beginProcessing (ts : Store) (u : Nat)
      (h : (findTask ts u).map Task.status = some .queued) :
      Step ts (startProcessing ts u)
  | finishSuccess (ts : Store) (u : Nat) (r : Pipe.PPTMinioResult)
      (h : (findTask ts u).map Task.status = some .processing) :
      Step ts (updateTask ts u (completeTask r))
  | finishFailure (ts : Store) (u : Nat) (e : Option String)
      (h : (findTask ts u).map Task.status = some .processing) :
      Step ts (updateTask ts u (failTask e))

/-- Stores reachable from the empty initial `tasks = {}` dict. -/
def Reachable (ts : Store) : Prop :=
  Relation.ReflTransGen Step [] ts

/-- Status of the full v2 job lifecycle, in order: record created
(`created`), admitted (`queued`), then the worker trace statuses. -/
def jobStatusTrace (uuid : Nat) (ppt_url ppt_name : String) (width height : Nat)
    (bucket_name : String) (outcome : PipeOutcome) : List Status :=
  let td := newTaskData uuid ppt_url ppt_name width height bucket_name
  td.status :: .queued :: (process_ppt_task { td with status := .queued } outcome).map Task.status

/-- Progress values of the full v2 job lifecycle, in the same order as
`jobStatusTrace`. -/
def jobProgressTrace (uuid : Nat) (ppt_url ppt_name : String) (width height : Nat)
    (bucket_name : String) (outcome : PipeOutcome) : List Nat :=
  let td := newTaskData uuid ppt_url ppt_name width height bucket_name
  td.progress :: td.progress :: (process_ppt_task { td with status := .queued } outcome).map Task.progress

end V2

/-- `os.path.join` on the forward-slash paths used by the servers. -/
def joinPath (a b : String) : String := a ++ "/" ++ b

/-- `os.path.basename` on forward-slash paths. -/
def basename (p : String) : String := (p.splitOn "/").getLastD p

/-- Python `str.endswith` (the `f.endswith('.png')` test of the recovery
scan), implemented over the character lists so that concrete instances
evaluate. -/
def strEndsWith (s suffix : String) : Bool := suffix.data.isSuffixOf s.data

/-- The part of a filename after its last dot —
`filename.rsplit('.', 1)[1]` and the tail of `os.path.splitext` — for
names that contain a dot. -/
def afterLastDot (filename : String) : String :=
  ⟨(filename.data.reverse.takeWhile (fun c => !(c == '.'))).reverse⟩

/-- Python `str.lower`, per character. -/
def strToLower (s : String) : String := ⟨s.data.map Char.toLower⟩

namespace V1

/-- One entry of the v1 `tasks` dict, as created by `v1/api.py:61-72`
(`task_data`): status `uploaded`, `progress` 0, counters at 0. -/
structure Task where
  uuid : Nat
  original_filename : String
  status : Status
  progress : Nat
  total_images : Nat
  processed_images : Nat
  width : Nat
  height : Nat
  error : Option String
deriving DecidableEq, Repr

/-- `MAX_CONCURRENT_TASKS = 10` (`v1/websocket_server.py:18`). -/
def MAX_CONCURRENT_TASKS : Nat := 10

/-- The v1 `tasks` dict, keyed by `Task.uuid`. -/
abbrev Store := List Task

/-- First entry with the given uuid (`tasks[uuid]` read). -/
def findTask (ts : Store) (u : Nat) : Option Task :=
  ts.find? (fun t => t.uuid == u)

/-- Python dict assignment `tasks[uuid] = td` (`add_task`,
`v1/websocket_server.py:220-223`). -/
def add_task (ts : Store) (td : Task) : Store :=
  td :: ts.filter (fun t => ¬ t.uuid == td.uuid)

/-- In-place mutation of the entry with the given uuid. -/
def updateTask (ts : Store) (u : Nat) (f : Task → Task) : Store :=
  match ts with
  | [] => []
  | t :: rest => if t.uuid == u then f t :: rest else t :: updateTask rest u f

/-- The `task_data` dict built by `v1/api.py` `upload_file` (lines 61-72). -/
def newUploadTask (uuid : Nat) (original : String) (width height : Nat) : Task :=
  { uuid := uuid
    original_filename := original
    status := .uploaded
    progress := 0
    total_images := 0
    processed_images := 0
    width := width
    height := height
    error := none }

/-- Count of jobs the v1 admission check looks at
(`v1/websocket_server.py:58`): only those with status `processing` —
`queued` jobs are not counted. -/
def countProcessing (ts : Store) : Nat :=
  (ts.filter (fun t => t.status == Status.processing)).length

/-- Count of jobs in `{queued, processing}` (the quantity the claimed
invariant bounds). -/
def countQueuedOrProcessing (ts : Store) : Nat :=
  (ts.filter (fun t => t.status.isActive)).length

/-- The admission block of `handle_start_task`
(`v1/websocket_server.py:42-65`), executed under `tasks_lock`: requires an
existing record in status `uploaded`; counts only `processing` jobs
against `MAX_CONCURRENT_TASKS`; on admission marks the record `queued`.
A rejected submission's record stays in the store. -/
def handle_start_task (ts : Store) (uuid : Nat) : Store × Bool :=
  match findTask ts uuid with
  | none => (ts, false)
  | some t =>
    if ¬ t.status == Status.uploaded then (ts, false)
    else
      let active_tasks := countProcessing ts
      if MAX_CONCURRENT_TASKS ≤ active_tasks then (ts, false)
      else (updateTask ts uuid (fun t => { t with status := .queued }), true)

/-- Upload `n` fresh files through `v1/api.py` `upload_file`. -/
def uploadMany (n : Nat) : Store :=
  (List.range n).foldl (fun ts i => add_task ts (newUploadTask i "deck.pptx" 1920 1080)) []

/-- Run `handle_start_task` for each uuid in turn, collecting whether each
submission was admitted. -/
def startAll (ts : Store) (ids : List Nat) : Store × List Bool :=
  ids.foldl
    (fun p i =>
      let r := handle_start_task p.1 i
      (r.1, p.2 ++ [r.2]))
    (ts, [])

end V1

namespace Api

/-- Error text of CPython `len()` applied to the `PPTConversionResult`
dataclass, which defines no `__len__` (raised at `api.py:108`). -/
def lenTypeError : String := "object of type 'PPTConversionResult' has no len()"

/-- Error text of CPython iteration over the `PPTConversionResult`
dataclass, which defines no `__iter__` (raised at `api.py:382`). -/
def iterTypeError : String := "'PPTConversionResult' object is not iterable"

/-- A Python value stored under `task['image_paths']`: either a genuine
list of path strings (recovery writes one at `api.py:41-43`) or the
`PPTConversionResult` object that `process_ppt_task` stores at
`api.py:105` since `pptx_to_images` returns the dataclass, not a list. -/
inductive PyVal
  | strList (xs : List String)
  | convResult (r : Pipe.PPTConversionResult)
deriving DecidableEq, Repr

/-- Python `len()` on an `image_paths` value. -/
def pyLen : PyVal → Except String Nat
  | .strList xs => .ok xs.length
  | .convResult _ => .error lenTypeError

/-- Python iteration (`enumerate(...)`) over an `image_paths` value. -/
def pyIter : PyVal → Except String (List String)
  | .strList xs => .ok xs
  | .convResult _ => .error iterTypeError

/-- One entry of the `api.py` `tasks` dict. Keys `image_paths`, `error` and
`completed_at` are absent until first assigned (`Option`/`none`); ids are
uuid4 strings in the source, kept as `String` because recovery reuses
directory names as ids. -/
structure Task where
  id : String
  original_filename : String
  filename : String
  ppt_path : String
  output_dir : String
  status : Status
  created_at : Nat
  width : Nat
  height : Nat
  callback_url : Option String
  image_paths : Option PyVal
  error : Option String
  completed_at : Option Nat
deriving DecidableEq, Repr

/-- The `api.py` `tasks` dict, keyed by `Task.id`. -/
abbrev Store := List Task

/-- First entry with the given id (`tasks[task_id]` read). -/
def findTask (ts : Store) (i : String) : Option Task :=
  ts.find? (fun t => t.id == i)

/-- `UPLOAD_FOLDER = 'uploads'` (`api.py:68`). -/
def UPLOAD_FOLDER : String := "uploads"

/-- `RESULT_FOLDER = 'results'` (`api.py:69`). -/
def RESULT_FOLDER : String := "results"

/-- `ALLOWED_EXTENSIONS = {'ppt', 'pptx'}` (`api.py:70`). -/
def ALLOWED_EXTENSIONS : List String := ["ppt", "pptx"]

/-- `allowed_file` (`api.py:88-91`): the name contains a dot and the part
after the last dot, lowercased, is an allowed extension. -/
def allowed_file (filename : String) : Bool :=
  filename.data.contains '.' &&
    ALLOWED_EXTENSIONS.contains (strToLower (afterLastDot filename))

/-- Outcome of the worker's call `pptx_to_images(...)` (`api.py:101`): an
exception, or the `PPTConversionResult` object (returned both for
successful and for failed conversions). -/
inductive WorkerOutcome
  | raises (msg : String)
  | returns (r : Pipe.PPTConversionResult)
deriving DecidableEq, Repr

/-- Record states traversed, in order, by one run of the `api.py` worker
`process_ppt_task` (lines 94-118) on record `t`, paired with whether the
`finally` block invokes `send_callback` (line 117: only when a
callback url was passed). When `pptx_to_images` returns, the worker first
assigns status `completed` (line 104), stores the returned object under
`image_paths` (line 105) and sets `completed_at` (line 106); only then the
log f-string at line 108 evaluates `len(image_paths)`, which raises
`TypeError` (`pyLen`) because the value is the dataclass — so control falls
into the `except` handler and the record ends `failed` carrying the
TypeError text instead of the conversion error. The no-TypeError branch is
translated as written although it is unreachable. -/
def process_ppt_task (t : Task) (outcome : WorkerOutcome) (now : Nat) :
    List Task × Bool :=
  let t1 := { t with status := .processing }
  let trace :=
    match outcome with
    | .raises e => [t1, { t1 with status := .failed, error := some e }]
    | .returns r =>
      let t2 := { t1 with status := .completed }
      let t3 := { t2 with image_paths := some (.convResult r) }
      let t4 := { t3 with completed_at := some now }
      match pyLen (.convResult r) with
      | .ok _ => [t1, t2, t3, t4]
      | .error e => [t1, t2, t3, t4, { t4 with status := .failed, error := some e }]
  (trace, t.callback_url.isSome)

/-- A submission to `POST /api/upload` as the handler sees it. -/
structure UploadRequest where
  has_file_part : Bool
  filename : String
  width : Nat
  height : Nat
  callback_url : Option String
deriving DecidableEq, Repr

/-- HTTP response of `upload_file`. -/
inductive UploadResponse
  | rejected (code : Nat) (error : String)
  | accepted (task_id : String) (status : Status)
deriving DecidableEq, Repr

/-- File extension as `os.path.splitext(...)[1].lower()` (`api.py:183`). -/
def extOf (filename : String) : String :=
  if filename.data.contains '.' then "." ++ strToLower (afterLastDot filename) else ""

/-- `upload_file` (`api.py:163-231`). File-part, name and extension checks
come first; the `callback_url` check at lines 200-202 rejects the
submission with HTTP 400 before any task record is created — `if not
callback_url` is also taken for an empty string. Only past that check is
the `pending` record created and the worker thread started. Returns the
created record, if any, and the HTTP response. -/
def upload_file (req : UploadRequest) (task_id : String) (now : Nat) :
    Option Task × UploadResponse :=
  if ¬ req.has_file_part then (none, .rejected 400 "No file part")
  else if req.filename == "" then (none, .rejected 400 "No selected file")
  else if ¬ allowed_file req.filename then
    (none, .rejected 400 "File type not allowed. Allowed types: ppt, pptx")
  else
    match req.callback_url with
    | none => (none, .rejected 400 "callback_url is required")
    | some cb =>
      if cb == "" then (none, .rejected 400 "callback_url is required")
      else
        let filename := task_id ++ extOf req.filename
        (some { id := task_id
                original_filename := req.filename
                filename := filename
                ppt_path := joinPath UPLOAD_FOLDER filename
                output_dir := joinPath RESULT_FOLDER task_id
                status := .pending
                created_at := now
                width := req.width
                height := req.height
                callback_url := some cb
                image_paths := none
                error := none
                completed_at := none },
         .accepted task_id .pending)

/-- `MAX_CALLBACK_RETRIES = 3` (`api.py:84`). -/
def MAX_CALLBACK_RETRIES : Nat := 3

/-- `CALLBACK_RETRY_DELAY = 5` seconds (`api.py:85`). -/
def CALLBACK_RETRY_DELAY : Nat := 5

/-- What one outbound `requests.post` to the callback target does: returns
an HTTP status code, or raises a transport exception. -/
inductive AttemptResult
  | response (code : Nat)
  | exn (msg : String)
deriving DecidableEq, Repr

/-- Whether an outbound attempt counts as delivered: an HTTP response with
`200 <= status_code < 300` (`api.py:408`); a transport exception never
does. -/
def isSuccessAttempt : AttemptResult → Bool
  | .response code => decide (200 ≤ code ∧ code < 300)
  | .exn _ => false

/-- One image entry of the callback payload (`api.py:382-388`). -/
structure CallbackImage where
  slide : Nat
  filename : String
  path : String
deriving DecidableEq, Repr

/-- The callback payload built at `api.py:370-396`. -/
structure CallbackData where
  task_id : String
  status : Status
  original_filename : String
  filename : String
  created_at : Nat
  image_count : Option Nat
  images : Option (List CallbackImage)
  completed_at : Option Nat
  error : Option String
deriving DecidableEq, Repr

/-- Payload construction (`api.py:370-396`). For a `completed` task it
iterates `task.get('image_paths', [])` (line 382) and takes its `len`
(line 391); both raise `TypeError` when the stored value is the
`PPTConversionResult` object, which the surrounding `try` turns into a
retry. For a `failed` task it attaches the error text. -/
def build_callback_data (task_id : String) (t : Task) : Except String CallbackData :=
  let base : CallbackData :=
    { task_id := task_id
      status := t.status
      original_filename := t.original_filename
      filename := t.filename
      created_at := t.created_at
      image_count := none
      images := none
      completed_at := none
      error := none }
  if t.status == Status.completed then
    match pyIter (t.image_paths.getD (.strList [])) with
    | .error e => .error e
    | .ok paths =>
      let image_files := paths.enum.map (fun p =>
        { slide := p.1 + 1
          filename := basename p.2
          path := "/api/tasks/" ++ task_id ++ "/images/" ++ basename p.2 : CallbackImage })
      match pyLen (t.image_paths.getD (.strList [])) with
      | .error e => .error e
      | .ok n =>
        .ok { base with
              image_count := some n
              images := some image_files
              completed_at := t.completed_at }
  else if t.status == Status.failed then
    .ok { base with error := some (t.error.getD "Unknown error") }
  else
    .ok base

/-- What one iteration of the `try` block of `send_callback` observes on
attempt `i`: the task lookup `tasks[task_id]` (KeyError when absent), the
payload construction, then the outbound post (`target i`). Any raised
exception is funneled to the `except` branch. -/
def attemptOutcome (ts : Store) (task_id : String) (target : Nat → AttemptResult)
    (i : Nat) : Except String Nat :=
  match findTask ts task_id with
  | none => .error ("KeyError: " ++ task_id)
  | some t =>
    match build_callback_data task_id t with
    | .error e => .error e
    | .ok _ =>
      match target i with
      | .response code => .ok code
      | .exn m => .error m

/-- Observable result of one `send_callback` call: the `tasks` store after
the call, the returned boolean, and — instrumentation for counting — the
total number of delivery attempts made and the list of sleeps performed. -/
structure CallbackRun where
  store : Store
  delivered : Bool
  attempts : Nat
  sleeps : List Nat
deriving DecidableEq, Repr

/-- `send_callback` (`api.py:358-431`): posts the payload; a 2xx response
returns `True`; a non-2xx response or any exception sleeps
`CALLBACK_RETRY_DELAY` seconds and recurses with `retry_count + 1` while
`retry_count < MAX_CALLBACK_RETRIES`, else returns `False`. The store is
threaded through because every retry re-reads `tasks[task_id]`; no
assignment to the store occurs anywhere in the source function. -/
def send_callback (ts : Store) (task_id : String) (target : Nat → AttemptResult)
    (retry_count : Nat) : CallbackRun :=
  match attemptOutcome ts task_id target retry_count with
  | .ok code =>
    if 200 ≤ code ∧ code < 300 then
      { store := ts, delivered := true, attempts := 1, sleeps := [] }
    else if h : retry_count < MAX_CALLBACK_RETRIES then
      let r := send_callback ts task_id target (retry_count + 1)
      { store := r.store, delivered := r.delivered, attempts := r.attempts + 1,
        sleeps := CALLBACK_RETRY_DELAY :: r.sleeps }
    else
      { store := ts, delivered := false, attempts := 1, sleeps := [] }
  | .error _ =>
    if h : retry_count < MAX_CALLBACK_RETRIES then
      let r := send_callback ts task_id target (retry_count + 1)
      { store := r.store, delivered := r.delivered, attempts := r.attempts + 1,
        sleeps := CALLBACK_RETRY_DELAY :: r.sleeps }
    else
      { store := ts, delivered := false, attempts := 1, sleeps := [] }
termination_by MAX_CALLBACK_RETRIES + 1 - retry_count
decreasing_by
  all_goals omega

/-- A startup filesystem entry under `RESULT_FOLDER` as `os.listdir` and
`os.path.isdir` see it: a plain file, or a task directory with its file
names and its ctime/mtime metadata. -/
inductive FsEntry
  | file (name : String)
  | dir (name : String) (files : List String) (ctime mtime : Nat)
deriving DecidableEq, Repr

/-- Name of a filesystem entry. -/
def FsEntry.name : FsEntry → String
  | .file n => n
  | .dir n _ _ _ => n

/-- Python `sorted` on a list of strings (`api.py:42`). -/
def sortedPy (l : List String) : List String :=
  List.insertionSort (· ≤ ·) l

/-- The original-upload lookup of `load_existing_tasks` (`api.py:33-38`):
try `uploads/<task_dir>.ppt`, then `uploads/<task_dir>.pptx`. -/
def findUpload (uploads : List String) (task_dir : String) : Option String :=
  if uploads.contains (task_dir ++ ".ppt") then
    some (joinPath UPLOAD_FOLDER (task_dir ++ ".ppt"))
  else if uploads.contains (task_dir ++ ".pptx") then
    some (joinPath UPLOAD_FOLDER (task_dir ++ ".pptx"))
  else none

/-- The task record rebuilt at `api.py:46-59` for a result directory
holding at least one artifact: status `completed`, `image_paths` the
sorted `.png` names joined onto the directory path, `ppt_path` the
matching original upload or `''` when absent, timestamps from the
directory metadata. -/
def recoveredTask (task_dir : String) (image_files : List String)
    (ctime mtime : Nat) (uploads : List String) : Task :=
  { id := task_dir
    original_filename := "recovered_" ++ task_dir ++ ".pptx"
    filename := task_dir ++ ".pptx"
    ppt_path := (findUpload uploads task_dir).getD ""
    output_dir := joinPath RESULT_FOLDER task_dir
    status := .completed
    created_at := ctime
    width := 1920
    height := 1080
    callback_url := some ""
    image_paths := some (.strList
      ((sortedPy image_files).map (joinPath (joinPath RESULT_FOLDER task_dir))))
    error := none
    completed_at := some mtime }

/-- `load_existing_tasks` (`api.py:18-65`; `websocket_server.py:34-80` is
line-for-line the same scan): for each directory entry under
`RESULT_FOLDER`, collect the file names ending in `.png`; if there is at
least one, insert exactly one recovered `completed` record under the
directory's name; otherwise insert nothing. Plain files are skipped by the
`os.path.isdir` test. The lookup of the original upload is optional and
its absence changes only `ppt_path`. -/
def load_existing_tasks : List FsEntry → List String → Store
  | [], _ => []
  | .file _ :: es, uploads => load_existing_tasks es uploads
  | .dir name files ctime mtime :: es, uploads =>
    let image_files := files.filter (fun f => strEndsWith f ".png")
    if image_files.isEmpty then load_existing_tasks es uploads
    else recoveredTask name image_files ctime mtime uploads :: load_existing_tasks es uploads

end Api

namespace V2

/-- A store holding five queued jobs: all admission slots taken. -/
def sampleFullStore : Store :=
  (List.range 5).map (fun i => { newTaskData i "u" "n" 1920 1080 "images" with status := .queued })

/-- An admitted task record, as stored by `handle_start_ppt_processing`. -/
def sampleQueuedTask : Task :=
  { newTaskData 1 "http://h/deck.pptx" "deck" 1920 1080 "images" with status := .queued }

/-- A successful pipeline return value carrying three uploaded images. -/
def sampleMinioSuccess : Pipe.PPTMinioResult :=
  { ppt_url := "http://h/deck.pptx"
    ppt_name := "deck"
    bucket_name := "images"
    total_slides := 3
    successful_uploads := 3
    failed_uploads := 0
    upload_results := []
    download_urls := ["http://m/1.png", "http://m/2.png", "http://m/3.png"]
    temp_dir := none }

end V2

namespace Api

/-- A failed-conversion pipeline return value (`success=False`, error text
set), as produced by `pptx_to_images.py:182-192`. -/
def sampleConvFailure : Pipe.PPTConversionResult :=
  { success := false
    total_slides := 3
    converted_slides := 0
    image_info_list := []
    pptx_path := "uploads/t1.pptx"
    output_dir := "results/t1"
    width := 1920
    height := 1080
    error := some "打开PPT文件失败" }

/-- A freshly uploaded `pending` task record with a callback url. -/
def samplePendingTask : Task :=
  { id := "t1"
    original_filename := "deck.pptx"
    filename := "t1.pptx"
    ppt_path := "uploads/t1.pptx"
    output_dir := "results/t1"
    status := .pending
    created_at := 100
    width := 1920
    height := 1080
    callback_url := some "http://client/cb"
    image_paths := none
    error := none
    completed_at := none }

/-- A task record already resolved to `failed`. -/
def sampleFailedTask : Task :=
  { samplePendingTask with status := .failed, error := some "boom" }

/-- A callback target that answers HTTP 500 on the first three attempts
and HTTP 200 on the fourth. -/
def target500then200 : Nat → AttemptResult :=
  fun i => if i < 3 then .response 500 else .response 200

/-- A callback target whose post always raises a transport exception. -/
def targetAlwaysExn : Nat → AttemptResult :=
  fun _ => .exn "Connection refused"

/-- A result folder holding one task directory with three artifact files
(listed unsorted) and nothing else. -/
def sampleRecoveryEntries : List FsEntry :=
  [.dir "job1" ["b.png", "a.png", "c.png"] 10 20]

/-- A result folder holding one non-empty task directory without any
`.png` file. -/
def sampleNoPngEntries : List FsEntry :=
  [.dir "job2" ["readme.txt", "data.bin"] 1 2]

end Api

namespace V2

theorem countActive_nil : countActive [] = 0 := rfl

theorem countActive_cons (t : Task) (ts : Store) :
    countActive (t :: ts) = (if t.status.isActive then 1 else 0) + countActive ts := by
  by_cases h : t.status.isActive <;>
    simp [countActive, List.filter_cons, h, Nat.add_comm]

theorem countActive_filter_le (p : Task → Bool) (ts : Store) :
    countActive (ts.filter p) ≤ countActive ts := by
  induction ts with
  | nil => simp [countActive]
  | cons t rest ih =>
    by_cases hp : p t
    · rw [List.filter_cons_of_pos hp, countActive_cons, countActive_cons]
      omega
    · rw [List.filter_cons_of_neg hp, countActive_cons]
      omega

theorem countActive_insertTask (ts : Store) (td : Task) :
    countActive (insertTask ts td) ≤ countActive ts + 1 := by
  have h := countActive_filter_le (fun t => ¬ t.uuid == td.uuid) ts
  rw [insertTask, countActive_cons]
  split <;> omega

theorem countActive_updateTask_processing (ts : Store) (u : Nat)
    (h : (findTask ts u).map Task.status = some .queued) :
    countActive (updateTask ts u (fun t => { t with status := Status.processing }))
      = countActive ts := by
  induction ts with
  | nil => simp [findTask] at h
  | cons t rest ih =>
    by_cases hu : (t.uuid == u) = true
    · have ht : t.status = .queued := by
        simp [findTask, List.find?_cons, hu] at h
        exact h
      simp only [updateTask, hu, if_true]
      rw [countActive_cons, countActive_cons]
      simp [ht, Status.isActive]
    · have h' : (findTask rest u).map Task.status = some .queued := by
        simpa [findTask, List.find?_cons, hu] using h
      simp only [updateTask, hu, if_false, Bool.false_eq_true]
      rw [countActive_cons, countActive_cons, ih h']

theorem countActive_updateTask_inactive (ts : Store) (u : Nat) (f : Task → Task)
    (hf : ∀ t, ((f t).status).isActive = false) :
    countActive (updateTask ts u f) ≤ countActive ts := by
  induction ts with
  | nil => simp [updateTask]
  | cons t rest ih =>
    by_cases hu : (t.uuid == u) = true
    · simp only [updateTask, hu, if_true]
      rw [countActive_cons, countActive_cons]
      simp only [hf t, Bool.false_eq_true, if_false]
      split <;> omega
    · simp only [updateTask, hu, if_false, Bool.false_eq_true]
      rw [countActive_cons, countActive_cons]
      omega

theorem findTask_updateTask (ts : Store) (u : Nat) (f : Task → Task)
    (hf : ∀ t, (f t).uuid = t.uuid) :
    findTask (updateTask ts u f) u = (findTask ts u).map f := by
  induction ts with
  | nil => rfl
  | cons t rest ih =>
    by_cases hu : (t.uuid == u) = true
    · have hfu : ((f t).uuid == u) = true := by
        rw [hf t]; exact hu
      simp [updateTask, findTask, List.find?_cons, hu, hfu]
    · simp only [updateTask, hu, if_false, Bool.false_eq_true]
      simp only [findTask, List.find?_cons] at ih ⊢
      simp only [hu, Bool.false_eq_true, if_false]
      exact ih

theorem step_countActive_le {a b : Store} (hstep : Step a b)
    (ih : countActive a ≤ MAX_CONCURRENT_TASKS) :
    countActive b ≤ MAX_CONCURRENT_TASKS := by
  cases hstep with
  | submit uuid url name w hh bucket =>
    rw [handle_start_ppt_processing]
    by_cases hc : MAX_CONCURRENT_TASKS ≤ countActive a
    · simp only [hc, if_true]
      exact ih
    · simp only [hc, if_false]
      refine le_trans (countActive_insertTask a _) ?_
      omega
  | beginProcessing u hq =>
    rw [startProcessing, countActive_updateTask_processing a u hq]
    exact ih
  | finishSuccess u r hp =>
    have h1 := countActive_updateTask_inactive a u (completeTask r)
      (fun t => by simp [completeTask, Status.isActive])
    omega
  | finishFailure u e hp =>
    have h1 := countActive_updateTask_inactive a u (failTask e)
      (fun t => by simp [failTask, Status.isActive])
    omega

theorem reachable_countActive_le {ts : Store} (h : Reachable ts) :
    countActive ts ≤ MAX_CONCURRENT_TASKS := by
  induction h with
  | refl => simp [countActive]
  | tail hsteps hstep ih => exact step_countActive_le hstep ih

end V2

namespace Api

theorem attemptOutcome_resolves (ts : Store) (task_id : String) (t : Task)
    (target : Nat → AttemptResult) (i : Nat) (d : CallbackData)
    (h1 : findTask ts task_id = some t)
    (h2 : build_callback_data task_id t = Except.ok d) :
    attemptOutcome ts task_id target i
      = match target i with
        | .response code => Except.ok code
        | .exn m => Except.error m := by
  simp only [attemptOutcome, h1, h2]

theorem send_callback_of_success (ts : Store) (task_id : String) (t : Task)
    (target : Nat → AttemptResult) (rc : Nat)
    (h1 : findTask ts task_id = some t)
    (hb : ∃ d, build_callback_data task_id t = Except.ok d)
    (hs : isSuccessAttempt (target rc) = true) :
    send_callback ts task_id target rc
      = { store := ts, delivered := true, attempts := 1, sleeps := [] } := by
  obtain ⟨d, h2⟩ := hb
  rw [send_callback, attemptOutcome_resolves ts task_id t target rc d h1 h2]
  cases htg : target rc with
  | response code =>
    rw [htg] at hs
    simp only [isSuccessAttempt, decide_eq_true_eq] at hs
    simp [hs]
  | exn m =>
    rw [htg] at hs
    simp [isSuccessAttempt] at hs

theorem send_callback_of_fail_retry (ts : Store) (task_id : String) (t : Task)
    (target : Nat → AttemptResult) (rc : Nat)
    (h1 : findTask ts task_id = some t)
    (hb : ∃ d, build_callback_data task_id t = Except.ok d)
    (hf : isSuccessAttempt (target rc) = false)
    (hlt : rc < MAX_CALLBACK_RETRIES) :
    send_callback ts task_id target rc
      = { store := (send_callback ts task_id target (rc + 1)).store
          delivered := (send_callback ts task_id target (rc + 1)).delivered
          attempts := (send_callback ts task_id target (rc + 1)).attempts + 1
          sleeps := CALLBACK_RETRY_DELAY :: (send_callback ts task_id target (rc + 1)).sleeps } := by
  obtain ⟨d, h2⟩ := hb
  rw [send_callback, attemptOutcome_resolves ts task_id t target rc d h1 h2]
  cases htg : target rc with
  | response code =>
    rw [htg] at hf
    simp only [isSuccessAttempt, decide_eq_false_iff_not] at hf
    simp [hf, hlt]
  | exn m =>
    simp [hlt]

theorem send_callback_of_fail_exhaust (ts : Store) (task_id : String) (t : Task)
    (target : Nat → AttemptResult) (rc : Nat)
    (h1 : findTask ts task_id = some t)
    (hb : ∃ d, build_callback_data task_id t = Except.ok d)
    (hf : isSuccessAttempt (target rc) = false)
    (hge : ¬ rc < MAX_CALLBACK_RETRIES) :
    send_callback ts task_id target rc
      = { store := ts, delivered := false, attempts := 1, sleeps := [] } := by
  obtain ⟨d, h2⟩ := hb
  rw [send_callback, attemptOutcome_resolves ts task_id t target rc d h1 h2]
  cases htg : target rc with
  | response code =>
    rw [htg] at hf
    simp only [isSuccessAttempt, decide_eq_false_iff_not] at hf
    simp [hf, hge]
  | exn m =>
    simp [hge]

theorem send_callback_store_aux (n : Nat) :
    ∀ (ts : Store) (task_id : String) (target : Nat → AttemptResult) (rc : Nat),
      MAX_CALLBACK_RETRIES - rc ≤ n → (send_callback ts task_id target rc).store = ts := by
  induction n with
  | zero =>
    intro ts task_id target rc h
    have hge : ¬ rc < MAX_CALLBACK_RETRIES := by omega
    rw [send_callback]
    simp only [dif_neg hge]
    split
    · split <;> rfl
    · rfl
  | succ n ih =>
    intro ts task_id target rc h
    rw [send_callback]
    by_cases hlt : rc < MAX_CALLBACK_RETRIES
    · simp only [dif_pos hlt]
      have hrec := ih ts task_id target (rc + 1) (by omega)
      split
      · split
        · rfl
        · exact hrec
      · exact hrec
    · simp only [dif_neg hlt]
      split
      · split <;> rfl
      · rfl

theorem send_callback_store_eq (ts : Store) (task_id : String)
    (target : Nat → AttemptResult) (rc : Nat) :
    (send_callback ts task_id target rc).store = ts :=
  send_callback_store_aux MAX_CALLBACK_RETRIES ts task_id target rc (by omega)

theorem mem_load_id (es : List FsEntry) (uploads : List String) :
    ∀ t ∈ load_existing_tasks es uploads, t.id ∈ es.map FsEntry.name := by
  induction es with
  | nil => simp [load_existing_tasks]
  | cons e rest ih =>
    cases e with
    | file n =>
      intro t ht
      rw [load_existing_tasks] at ht
      exact List.mem_cons_of_mem _ (ih t ht)
    | dir n files ctime mtime =>
      intro t ht
      rw [load_existing_tasks] at ht
      by_cases himg : (files.filter (fun f => strEndsWith f ".png")).isEmpty
      · rw [if_pos himg] at ht
        exact List.mem_cons_of_mem _ (ih t ht)
      · rw [if_neg himg] at ht
        rcases List.mem_cons.mp ht with h | h
        · subst h
          simp [recoveredTask, FsEntry.name]
        · exact List.mem_cons_of_mem _ (ih t h)

theorem load_existing_absent (es : List FsEntry) (uploads : List String) (name : String)
    (h : name ∉ es.map FsEntry.name) :
    findTask (load_existing_tasks es uploads) name = none
    ∧ (load_existing_tasks es uploads).countP (fun t => t.id == name) = 0 := by
  constructor
  · cases hfind : findTask (load_existing_tasks es uploads) name with
    | none => rfl
    | some t =>
      exfalso
      have hmem := List.mem_of_find?_eq_some hfind
      have hp := List.find?_some hfind
      have hid : t.id = name := by simpa using hp
      exact h (hid ▸ mem_load_id es uploads t hmem)
  · refine List.countP_eq_zero.mpr ?_
    intro t hmem hp
    have hid : t.id = name := by simpa using hp
    exact h (hid ▸ mem_load_id es uploads t hmem)

theorem load_existing_lookup (entries : List FsEntry) (uploads : List String)
    (name : String) (files : List String) (ctime mtime : Nat)
    (hmem : FsEntry.dir name files ctime mtime ∈ entries)
    (hnodup : (entries.map FsEntry.name).Nodup) :
    (files.filter (fun f => strEndsWith f ".png") ≠ [] →
      findTask (load_existing_tasks entries uploads) name
        = some (recoveredTask name (files.filter (fun f => strEndsWith f ".png"))
            ctime mtime uploads)
      ∧ (load_existing_tasks entries uploads).countP (fun t => t.id == name) = 1)
    ∧ (files.filter (fun f => strEndsWith f ".png") = [] →
      findTask (load_existing_tasks entries uploads) name = none
      ∧ (load_existing_tasks entries uploads).countP (fun t => t.id == name) = 0) := by
  induction entries with
  | nil => cases hmem
  | cons e rest ih =>
    rcases List.mem_cons.mp hmem with he | he
    · subst he
      have hname_not : name ∉ rest.map FsEntry.name := by
        rw [List.map_cons, List.nodup_cons] at hnodup
        exact hnodup.1
      constructor
      · intro hne
        have hempty : (files.filter (fun f => strEndsWith f ".png")).isEmpty = false := by
          simpa [List.isEmpty_iff] using hne
        rw [load_existing_tasks]
        simp only [hempty, Bool.false_eq_true, if_false]
        constructor
        · simp [findTask, List.find?_cons, recoveredTask]
        · rw [List.countP_cons]
          have h0 := (load_existing_absent rest uploads name hname_not).2
          simp [recoveredTask, h0]
      · intro heq
        have hempty : (files.filter (fun f => strEndsWith f ".png")).isEmpty = true := by
          simp [heq]
        rw [load_existing_tasks]
        simp only [hempty, if_true]
        exact load_existing_absent rest uploads name hname_not
    · have hrest : name ∈ rest.map FsEntry.name := by
        have : FsEntry.name (FsEntry.dir name files ctime mtime) = name := rfl
        exact this ▸ List.mem_map_of_mem FsEntry.name he
      have hnodup' : (rest.map FsEntry.name).Nodup := by
        rw [List.map_cons, List.nodup_cons] at hnodup
        exact hnodup.2
      have hne_head : e.name ≠ name := by
        rw [List.map_cons, List.nodup_cons] at hnodup
        intro hcontra
        exact hnodup.1 (hcontra ▸ hrest)
      have ih' := ih he hnodup'
      cases e with
      | file n =>
        rw [load_existing_tasks]
        exact ih'
      | dir n nfiles nct nmt =>
        by_cases hemp : (nfiles.filter (fun f => strEndsWith f ".png")).isEmpty
        · rw [load_existing_tasks]
          simp only [hemp, if_true]
          exact ih'
        · have hemp' : (nfiles.filter (fun f => strEndsWith f ".png")).isEmpty = false := by
            simpa using hemp
          have hid : ((recoveredTask n (nfiles.filter (fun f => strEndsWith f ".png"))
              nct nmt uploads).id == name) = false := by
            have : (recoveredTask n (nfiles.filter (fun f => strEndsWith f ".png"))
                nct nmt uploads).id = n := rfl
            rw [this]
            exact beq_eq_false_iff_ne.mpr hne_head
          rw [load_existing_tasks]
          simp only [hemp', Bool.false_eq_true, if_false]
          constructor
          · intro hne
            have hprev := ih'.1 hne
            refine ⟨?_, ?_⟩
            · rw [findTask, List.find?_cons, hid]
              exact hprev.1
            · rw [List.countP_cons, hid]
              simpa using hprev.2
          · intro heq
            have hprev := ih'.2 heq
            refine ⟨?_, ?_⟩
            · rw [findTask, List.find?_cons, hid]
              exact hprev.1
            · rw [List.countP_cons, hid]
              simpa using hprev.2

end Api

namespace Pipe

theorem minio_upload_le (n i : Nat) (hi : i < n) : 70 + ((i + 1) * 25) / n ≤ 95 := by
  have hn : 0 < n := Nat.lt_of_le_of_lt (Nat.zero_le i) hi
  have h1 : (i + 1) * 25 ≤ n * 25 := Nat.mul_le_mul_right 25 (by omega)
  have h2 : (i + 1) * 25 / n ≤ n * 25 / n := Nat.div_le_div_right h1
  have h3 : n * 25 / n = 25 := Nat.mul_div_cancel_left 25 hn
  omega

theorem minio_chain (n : Nat) :
    List.Chain' (· ≤ ·) (minioProgressSeq n) := by
  have hmono : ∀ i j : Nat, i ≤ j →
      70 + ((i + 1) * 25) / n ≤ 70 + ((j + 1) * 25) / n := by
    intro i j hij
    exact Nat.add_le_add_left (Nat.div_le_div_right (Nat.mul_le_mul_right 25 (by omega))) 70
  have hge70 : ∀ i : Nat, 70 ≤ 70 + ((i + 1) * 25) / n :=
    fun i => Nat.le_add_right 70 _
  have hchainB : List.Chain' (· ≤ ·)
      ((List.range n).map (fun i => 70 + ((i + 1) * 25) / n)) := by
    rw [List.chain'_map]
    cases n with
    | zero => simp
    | succ k =>
      rw [List.chain'_range_succ]
      intro m hm
      exact hmono m (m + 1) (Nat.le_succ m)
  have hchainA : List.Chain' (· ≤ ·) ([10, 30, 40, 60, 70] : List Nat) := by
    refine List.chain'_cons.mpr ⟨by omega, ?_⟩
    refine List.chain'_cons.mpr ⟨by omega, ?_⟩
    refine List.chain'_cons.mpr ⟨by omega, ?_⟩
    exact List.chain'_cons.mpr ⟨by omega, List.chain'_singleton 70⟩
  rw [minioProgressSeq]
  refine List.Chain'.append (List.Chain'.append hchainA hchainB ?_)
    (List.chain'_singleton 100) ?_
  · intro x hx y hy
    have hx70 : (70 : Nat) = x := by
      have hgl : ([10, 30, 40, 60, 70] : List Nat).getLast? = some 70 := rfl
      rw [hgl] at hx
      simpa using hx
    obtain ⟨i, hi, rfl⟩ := List.mem_map.mp (List.mem_of_mem_head? hy)
    rw [← hx70]
    exact hge70 i
  · intro x hx y hy
    have hy100 : (100 : Nat) = y := by simpa using hy
    rw [← hy100]
    rcases List.mem_getLast?_eq_getLast hx with ⟨hne, rfl⟩
    rcases List.mem_append.mp (List.getLast_mem hne) with h | h
    · simp only [List.mem_cons, List.not_mem_nil, or_false] at h
      rcases h with h | h | h | h | h <;> omega
    · obtain ⟨i, hi, heq⟩ := List.mem_map.mp h
      rw [← heq]
      exact Nat.le_trans (minio_upload_le n i (List.mem_range.mp hi)) (by omega)

theorem minio_bound (n : Nat) : ∀ x ∈ minioProgressSeq n, x ≤ 100 := by
  intro x hx
  rw [minioProgressSeq] at hx
  rcases List.mem_append.mp hx with h | h
  · rcases List.mem_append.mp h with h1 | h2
    · simp only [List.mem_cons, List.not_mem_nil, or_false] at h1
      rcases h1 with h | h | h | h | h <;> omega
    · obtain ⟨i, hi, heq⟩ := List.mem_map.mp h2
      rw [← heq]
      exact Nat.le_trans (minio_upload_le n i (List.mem_range.mp hi)) (by omega)
  · have h100 : x = 100 := by simpa using h
    omega

end Pipe

/-- C1 (amended): in the v2 server (`websocket_server_v2.py`) the claim
holds as stated — in every reachable store the number of jobs in
`{queued, processing}` is at most `MAX_CONCURRENT_TASKS`; a submission
arriving at the limit is rejected with the busy reason and its record is
not retained; a submission below the limit is admitted and its record is
stored already marked `queued`, in the same atomic locked block. The
original claim fails only for the v1 variant (see the counterexample),
whose admission counts only `processing` jobs. -/
theorem C1_admission_invariant :
    (∀ ts : V2.Store, V2.Reachable ts → V2.countActive ts ≤ V2.MAX_CONCURRENT_TASKS)
    ∧ (∀ (ts : V2.Store) (uuid : Nat) (url name : String) (w h : Nat) (bucket : String),
        V2.MAX_CONCURRENT_TASKS ≤ V2.countActive ts →
          V2.handle_start_ppt_processing ts uuid url name w h bucket
            = (ts, .rejected (V2.busyMessage (V2.countActive ts))))
    ∧ (∀ (ts : V2.Store) (uuid : Nat) (url name : String) (w h : Nat) (bucket : String),
        V2.countActive ts < V2.MAX_CONCURRENT_TASKS →
          (V2.handle_start_ppt_processing ts uuid url name w h bucket).2
              = .admitted uuid
          ∧ V2.findTask (V2.handle_start_ppt_processing ts uuid url name w h bucket).1 uuid
              = some { V2.newTaskData uuid url name w h bucket with status := .queued }) := by
  refine ⟨fun ts h => V2.reachable_countActive_le h, ?_, ?_⟩
  · intro ts uuid url name w h bucket hc
    simp [V2.handle_start_ppt_processing, hc]
  · intro ts uuid url name w h bucket hc
    have hc' : ¬ V2.MAX_CONCURRENT_TASKS ≤ V2.countActive ts := Nat.not_le.mpr hc
    constructor
    · simp [V2.handle_start_ppt_processing, hc']
    · simp [V2.handle_start_ppt_processing, hc', V2.insertTask, V2.findTask,
        List.find?_cons, V2.newTaskData]

/-- Witness for C1: a store produced by one admitted submission satisfies
the bound; a store with all five slots queued rejects a sixth submission
unchanged; a submission against the empty store is admitted. -/
theorem C1_admission_invariant_witness :
    V2.countActive (V2.handle_start_ppt_processing [] 1 "http://h/a.pptx" "a" 1920 1080 "images").1
        ≤ V2.MAX_CONCURRENT_TASKS
    ∧ V2.handle_start_ppt_processing V2.sampleFullStore 6 "u" "n" 1920 1080 "images"
        = (V2.sampleFullStore, .rejected (V2.busyMessage (V2.countActive V2.sampleFullStore)))
    ∧ (V2.handle_start_ppt_processing [] 1 "u" "n" 1920 1080 "images").2 = .admitted 1 := by
  refine ⟨?_, ?_, ?_⟩
  · exact C1_admission_invariant.1 _
      (Relation.ReflTransGen.single (V2.Step.submit [] 1 "http://h/a.pptx" "a" 1920 1080 "images"))
  · exact C1_admission_invariant.2.1 V2.sampleFullStore 6 "u" "n" 1920 1080 "images" (by decide)
  · exact (C1_admission_invariant.2.2 [] 1 "u" "n" 1920 1080 "images" (by decide)).1

/-- Counterexample to C1 as stated: in the v1 variant
(`v1/websocket_server.py:57-65`) the admission check counts only
`processing` jobs, so eleven uploads followed by eleven `start_task`
submissions are all admitted — none sees a `processing` job — leaving
eleven jobs in `{queued, processing}`, exceeding the configured maximum of
ten; the rejected-record/not-retained behavior never triggers. -/
theorem C1_counterexample :
    (V1.startAll (V1.uploadMany 11) (List.range 11)).2 = List.replicate 11 true
    ∧ V1.countQueuedOrProcessing (V1.startAll (V1.uploadMany 11) (List.range 11)).1 = 11
    ∧ V1.MAX_CONCURRENT_TASKS = 10
    ∧ ¬ V1.countQueuedOrProcessing (V1.startAll (V1.uploadMany 11) (List.range 11)).1
        ≤ V1.MAX_CONCURRENT_TASKS := by
  refine ⟨by decide, by decide, by decide, by decide⟩

/-- Counterexample to C2 as stated: no code path implements an
`AlreadyTerminal` rejection — status transitions are plain dict
assignments. Concretely, `task_done_callback`
(`websocket_server_v2.py:119-136`) applied to a store holding a
`completed` job when the worker future reports an exception overwrites the
terminal record with `failed` instead of failing: the record changes. -/
theorem C2_counterexample :
    V2.task_done_callback
        [{ V2.sampleQueuedTask with status := .completed, progress := 100 }] 1 (some "boom")
      = [{ V2.sampleQueuedTask with status := .failed, progress := 100, error := some "boom" }]
    ∧ V2.task_done_callback
        [{ V2.sampleQueuedTask with status := .completed, progress := 100 }] 1 (some "boom")
      ≠ [{ V2.sampleQueuedTask with status := .completed, progress := 100 }] := by
  refine ⟨by decide, by decide⟩

/-- C2 (amended): along the v2 job lifecycle — record creation, admission,
worker execution on any pipeline outcome — the status sequence is
monotone in the order `created → queued → processing → {completed,failed}`
(first conjunct); however the code has no `AlreadyTerminal` guard: a
further transition applied to a terminal job (the overwrite performed by
`task_done_callback` when the worker future raises) succeeds and replaces
the record with `failed` rather than failing (second conjunct). -/
theorem C2_status_forward :
    (∀ (uuid : Nat) (url name : String) (w h : Nat) (bucket : String)
        (outcome : V2.PipeOutcome),
      List.Chain' (fun a b => Status.rank a ≤ Status.rank b)
        (V2.jobStatusTrace uuid url name w h bucket outcome))
    ∧ (∀ (ts : V2.Store) (u : Nat) (e : String) (t : V2.Task),
        V2.findTask ts u = some t → t.status.isTerminal = true →
        V2.findTask (V2.task_done_callback ts u (some e)) u
          = some (V2.failTask (some e) t)) := by
  constructor
  · intro uuid url name w h bucket outcome
    cases outcome with
    | raises e =>
      show List.Chain' (fun a b => Status.rank a ≤ Status.rank b)
        [.created, .queued, .processing, .failed]
      refine List.chain'_cons.mpr ⟨by decide, ?_⟩
      refine List.chain'_cons.mpr ⟨by decide, ?_⟩
      exact List.chain'_cons.mpr ⟨by decide, List.chain'_singleton _⟩
    | returns r =>
      show List.Chain' (fun a b => Status.rank a ≤ Status.rank b)
        [.created, .queued, .processing, .failed]
      refine List.chain'_cons.mpr ⟨by decide, ?_⟩
      refine List.chain'_cons.mpr ⟨by decide, ?_⟩
      exact List.chain'_cons.mpr ⟨by decide, List.chain'_singleton _⟩
  · intro ts u e t hfind hterm
    have hsome : (V2.findTask ts u).isSome = true := by
      rw [hfind]; rfl
    rw [V2.task_done_callback]
    simp only [hsome, if_true]
    rw [V2.findTask_updateTask ts u (V2.failTask (some e)) (fun _ => rfl), hfind]
    rfl

/-- Witness for C2: the overwrite conclusion evaluated on a concrete store
holding one completed job. -/
theorem C2_status_forward_witness :
    V2.findTask
        (V2.task_done_callback
          [{ V2.sampleQueuedTask with status := .completed, progress := 100 }] 1 (some "late"))
        1
      = some (V2.failTask (some "late")
          { V2.sampleQueuedTask with status := .completed, progress := 100 }) := by
  exact C2_status_forward.2 _ 1 "late" _ (by decide) (by decide)

/-- C3 evaluated at the failing input (code bug): the worker of `api.py`
run on a conversion that fails without raising
(`PPTConversionResult(success=False, error=...)`, the return of
`pptx_to_images.py:182-192`) first marks the job `completed` — visible in
the trace — and only ends `failed` because `len()` applied to the returned
dataclass raises `TypeError` at `api.py:108`; the recorded error text is
the `TypeError` message, not the conversion's error text, contradicting
the claimed behavior of capturing the pipeline error and never entering
`completed`. -/
theorem C3_code_divergence :
    ((Api.process_ppt_task Api.samplePendingTask (.returns Api.sampleConvFailure) 200).1.map
        Api.Task.status).contains .completed = true
    ∧ ((Api.process_ppt_task Api.samplePendingTask
          (.returns Api.sampleConvFailure) 200).1.getLast?.map Api.Task.status)
        = some .failed
    ∧ ((Api.process_ppt_task Api.samplePendingTask
          (.returns Api.sampleConvFailure) 200).1.getLast?.map Api.Task.error)
        = some (some Api.lenTypeError)
    ∧ Api.sampleConvFailure.error = some "打开PPT文件失败"
    ∧ Api.lenTypeError ≠ "打开PPT文件失败" := by
  refine ⟨by decide, by decide, by decide, by decide, by decide⟩

/-- C4 evaluated at the failing input (code bug): on a successful pipeline
return carrying three uploaded images, the v2 worker never reaches
`completed` — `result['success']` at `websocket_server_v2.py:227`
subscripts the returned `PPTMinioResult` dataclass, raising `TypeError`,
so the job is marked `failed` with the `TypeError` text, the artifact list
stays empty, and the claimed equality between the recorded artifact count
and the pipeline's reported count never materializes. -/
theorem C4_code_divergence :
    ((V2.process_ppt_task V2.sampleQueuedTask (.returns V2.sampleMinioSuccess)).getLast?.map
        V2.Task.status) = some .failed
    ∧ ((V2.process_ppt_task V2.sampleQueuedTask (.returns V2.sampleMinioSuccess)).getLast?.map
        V2.Task.error) = some (some Pipe.pptMinioSubscriptError)
    ∧ ((V2.process_ppt_task V2.sampleQueuedTask (.returns V2.sampleMinioSuccess)).map
        V2.Task.status).contains .completed = false
    ∧ ((V2.process_ppt_task V2.sampleQueuedTask (.returns V2.sampleMinioSuccess)).getLast?.map
        V2.Task.download_urls) = some []
    ∧ V2.sampleMinioSuccess.successful_uploads = 3
    ∧ V2.sampleMinioSuccess.download_urls.length = 3 := by
  refine ⟨by decide, by decide, by decide, by decide, by decide, by decide⟩

/-- C5 (confirmed): for any callback target reachable through a stored task
whose payload builds, a target failing (non-2xx or exception) on the first
three attempts and succeeding on the fourth is marked delivered after
exactly four attempts, each retry preceded by one 5-second sleep; a target
failing on every attempt yields exactly `1 + 3 = 4` attempts, three
5-second sleeps, and the function returns `False` without raising (the
embedding is total). -/
theorem C5_callback_retry :
    (∀ (ts : Api.Store) (task_id : String) (t : Api.Task)
        (target : Nat → Api.AttemptResult),
      Api.findTask ts task_id = some t →
      (∃ d, Api.build_callback_data task_id t = Except.ok d) →
      (∀ i, i < 3 → Api.isSuccessAttempt (target i) = false) →
      Api.isSuccessAttempt (target 3) = true →
      Api.send_callback ts task_id target 0
        = { store := ts, delivered := true, attempts := 4, sleeps := [5, 5, 5] })
    ∧ (∀ (ts : Api.Store) (task_id : String) (t : Api.Task)
        (target : Nat → Api.AttemptResult),
      Api.findTask ts task_id = some t →
      (∃ d, Api.build_callback_data task_id t = Except.ok d) →
      (∀ i, Api.isSuccessAttempt (target i) = false) →
      Api.send_callback ts task_id target 0
        = { store := ts, delivered := false, attempts := 4, sleeps := [5, 5, 5] })
    ∧ Api.MAX_CALLBACK_RETRIES = 3 ∧ Api.CALLBACK_RETRY_DELAY = 5 := by
  refine ⟨?_, ?_, rfl, rfl⟩
  · intro ts task_id t target h1 hb hfail hsucc
    rw [Api.send_callback_of_fail_retry ts task_id t target 0 h1 hb
      (hfail 0 (by omega)) (by decide)]
    rw [Api.send_callback_of_fail_retry ts task_id t target (0 + 1) h1 hb
      (hfail (0 + 1) (by omega)) (by decide)]
    rw [Api.send_callback_of_fail_retry ts task_id t target (0 + 1 + 1) h1 hb
      (hfail (0 + 1 + 1) (by omega)) (by decide)]
    rw [Api.send_callback_of_success ts task_id t target (0 + 1 + 1 + 1) h1 hb hsucc]
    rfl
  · intro ts task_id t target h1 hb hfail
    rw [Api.send_callback_of_fail_retry ts task_id t target 0 h1 hb (hfail 0) (by decide)]
    rw [Api.send_callback_of_fail_retry ts task_id t target (0 + 1) h1 hb
      (hfail (0 + 1)) (by decide)]
    rw [Api.send_callback_of_fail_retry ts task_id t target (0 + 1 + 1) h1 hb
      (hfail (0 + 1 + 1)) (by decide)]
    rw [Api.send_callback_of_fail_exhaust ts task_id t target (0 + 1 + 1 + 1) h1 hb
      (hfail (0 + 1 + 1 + 1)) (by decide)]
    rfl

/-- Witness for C5: a stored failed task delivered to a target answering
500, 500, 500, 200, and to a target whose posts always raise. -/
theorem C5_callback_retry_witness :
    Api.send_callback [Api.sampleFailedTask] "t1" Api.target500then200 0
      = { store := [Api.sampleFailedTask], delivered := true, attempts := 4, sleeps := [5, 5, 5] }
    ∧ Api.send_callback [Api.sampleFailedTask] "t1" Api.targetAlwaysExn 0
      = { store := [Api.sampleFailedTask], delivered := false, attempts := 4, sleeps := [5, 5, 5] } := by
  constructor
  · exact C5_callback_retry.1 [Api.sampleFailedTask] "t1" Api.sampleFailedTask
      Api.target500then200 (by decide) ⟨_, rfl⟩
      (fun i hi => by simp only [Api.target500then200, if_pos hi]; decide)
      (by decide)
  · exact C5_callback_retry.2.1 [Api.sampleFailedTask] "t1" Api.sampleFailedTask
      Api.targetAlwaysExn (by decide) ⟨_, rfl⟩ (fun i => rfl)

/-- C6 (confirmed): callback delivery never modifies the job store —
`send_callback` only reads `tasks[task_id]` on each attempt — so for a
terminal job the store after delivery (successful or permanently failed)
is exactly the store before, and the job's record, including its status,
result and error fields, is unchanged. -/
theorem C6_callback_frame :
    ∀ (ts : Api.Store) (task_id : String) (target : Nat → Api.AttemptResult) (rc : Nat)
      (t : Api.Task),
      Api.findTask ts task_id = some t → t.status.isTerminal = true →
      (Api.send_callback ts task_id target rc).store = ts
      ∧ Api.findTask (Api.send_callback ts task_id target rc).store task_id = some t := by
  intro ts task_id target rc t hfind hterm
  refine ⟨Api.send_callback_store_eq ts task_id target rc, ?_⟩
  rw [Api.send_callback_store_eq ts task_id target rc, hfind]

/-- C7 (confirmed): for every subdirectory of the result folder holding at
least one `.png` artifact, the startup scan inserts exactly one record —
status `completed`, `image_paths` the artifact names sorted and joined
onto the directory path, `created_at`/`completed_at` taken from the
directory metadata, `ppt_path` the matching original upload or `''` when
it is absent (the uploads list is arbitrary, so a missing original never
prevents recovery); a subdirectory without artifacts yields no record. -/
theorem C7_recovery :
    ∀ (entries : List Api.FsEntry) (uploads : List String) (name : String)
      (files : List String) (ctime mtime : Nat),
      Api.FsEntry.dir name files ctime mtime ∈ entries →
      (entries.map Api.FsEntry.name).Nodup →
      (files.filter (fun f => strEndsWith f ".png") ≠ [] →
        (Api.load_existing_tasks entries uploads).countP (fun t => t.id == name) = 1
        ∧ Api.findTask (Api.load_existing_tasks entries uploads) name
            = some (Api.recoveredTask name (files.filter (fun f => strEndsWith f ".png"))
                ctime mtime uploads)
        ∧ (Api.recoveredTask name (files.filter (fun f => strEndsWith f ".png"))
            ctime mtime uploads).status = .completed
        ∧ (Api.recoveredTask name (files.filter (fun f => strEndsWith f ".png"))
            ctime mtime uploads).image_paths
            = some (.strList ((Api.sortedPy (files.filter (fun f => strEndsWith f ".png"))).map
                (joinPath (joinPath Api.RESULT_FOLDER name))))
        ∧ (Api.sortedPy (files.filter (fun f => strEndsWith f ".png"))).length
            = (files.filter (fun f => strEndsWith f ".png")).length
        ∧ List.Sorted (· ≤ ·) (Api.sortedPy (files.filter (fun f => strEndsWith f ".png")))
        ∧ (Api.recoveredTask name (files.filter (fun f => strEndsWith f ".png"))
            ctime mtime uploads).ppt_path = (Api.findUpload uploads name).getD ""
        ∧ (Api.recoveredTask name (files.filter (fun f => strEndsWith f ".png"))
            ctime mtime uploads).created_at = ctime
        ∧ (Api.recoveredTask name (files.filter (fun f => strEndsWith f ".png"))
            ctime mtime uploads).completed_at = some mtime)
      ∧ (files.filter (fun f => strEndsWith f ".png") = [] →
        Api.findTask (Api.load_existing_tasks entries uploads) name = none) := by
  intro entries uploads name files ctime mtime hmem hnodup
  have h := Api.load_existing_lookup entries uploads name files ctime mtime hmem hnodup
  constructor
  · intro hne
    refine ⟨(h.1 hne).2, (h.1 hne).1, rfl, rfl, ?_, ?_, rfl, rfl, rfl⟩
    · exact (List.perm_insertionSort (· ≤ ·) _).length_eq
    · exact List.sorted_insertionSort (· ≤ ·) _
  · intro heq
    exact (h.2 heq).1

/-- Witness for C7: a result directory with three artifact files and no
matching original upload (empty uploads list) yields exactly one completed
record whose artifact list has length three and whose `ppt_path` is
`''`. -/
theorem C7_recovery_witness :
    (Api.load_existing_tasks Api.sampleRecoveryEntries []).countP (fun t => t.id == "job1") = 1
    ∧ Api.findTask (Api.load_existing_tasks Api.sampleRecoveryEntries []) "job1"
        = some (Api.recoveredTask "job1"
            (["b.png", "a.png", "c.png"].filter (fun f => strEndsWith f ".png")) 10 20 [])
    ∧ (Api.recoveredTask "job1"
        (["b.png", "a.png", "c.png"].filter (fun f => strEndsWith f ".png")) 10 20 []).status
        = .completed
    ∧ (Api.sortedPy (["b.png", "a.png", "c.png"].filter (fun f => strEndsWith f ".png"))).length = 3
    ∧ (Api.recoveredTask "job1"
        (["b.png", "a.png", "c.png"].filter (fun f => strEndsWith f ".png")) 10 20 []).ppt_path
        = "" := by
  have h := (C7_recovery Api.sampleRecoveryEntries [] "job1" ["b.png", "a.png", "c.png"] 10 20
    (by decide) (by decide)).1 (by decide)
  refine ⟨h.1, h.2.1, h.2.2.1, ?_, ?_⟩
  · rw [h.2.2.2.2.1]
    decide
  · rw [h.2.2.2.2.2.2.1]
    rfl

/-- C10 (confirmed, implicit): the startup scan recognizes as artifacts
exactly the files whose names end in `.png` — a non-empty subdirectory
without any such file yields no record, and a recovered record's artifact
list is precisely the subdirectory's `.png` files (sorted and joined onto
the directory path) and nothing else. -/
theorem C10_png_filter :
    ∀ (entries : List Api.FsEntry) (uploads : List String) (name : String)
      (files : List String) (ctime mtime : Nat),
      Api.FsEntry.dir name files ctime mtime ∈ entries →
      (entries.map Api.FsEntry.name).Nodup →
      (files.filter (fun f => strEndsWith f ".png") = [] →
        Api.findTask (Api.load_existing_tasks entries uploads) name = none)
      ∧ (∀ rec, Api.findTask (Api.load_existing_tasks entries uploads) name = some rec →
          rec.image_paths = some (.strList
            ((Api.sortedPy (files.filter (fun f => strEndsWith f ".png"))).map
              (joinPath (joinPath Api.RESULT_FOLDER name))))
          ∧ ((Api.sortedPy (files.filter (fun f => strEndsWith f ".png"))).map
              (joinPath (joinPath Api.RESULT_FOLDER name))).Perm
              ((files.filter (fun f => strEndsWith f ".png")).map
                (joinPath (joinPath Api.RESULT_FOLDER name)))
          ∧ ∀ p ∈ files.filter (fun f => strEndsWith f ".png"), strEndsWith p ".png" = true) := by
  intro entries uploads name files ctime mtime hmem hnodup
  have h := Api.load_existing_lookup entries uploads name files ctime mtime hmem hnodup
  constructor
  · intro heq
    exact (h.2 heq).1
  · intro rec hrec
    by_cases hne : files.filter (fun f => strEndsWith f ".png") = []
    · rw [(h.2 hne).1] at hrec
      cases hrec
    · have hfind := (h.1 hne).1
      rw [hfind] at hrec
      have hrec' : rec = Api.recoveredTask name
          (files.filter (fun f => strEndsWith f ".png")) ctime mtime uploads :=
        (Option.some_injective _ hrec).symm
      subst hrec'
      refine ⟨rfl, ?_, ?_⟩
      · exact (List.perm_insertionSort (· ≤ ·) _).map _
      · intro p hp
        exact (List.mem_filter.mp hp).2

/-- Witness for C10: a non-empty directory containing only `readme.txt`
and `data.bin` recovers nothing, while the three-png directory's recovered
artifact list is a permutation of its `.png` files' joined paths. -/
theorem C10_png_filter_witness :
    Api.findTask (Api.load_existing_tasks Api.sampleNoPngEntries []) "job2" = none
    ∧ ((Api.sortedPy (["b.png", "a.png", "c.png"].filter (fun f => strEndsWith f ".png"))).map
        (joinPath (joinPath Api.RESULT_FOLDER "job1"))).Perm
        ((["b.png", "a.png", "c.png"].filter (fun f => strEndsWith f ".png")).map
          (joinPath (joinPath Api.RESULT_FOLDER "job1"))) := by
  constructor
  · exact (C10_png_filter Api.sampleNoPngEntries [] "job2" ["readme.txt", "data.bin"] 1 2
      (by decide) (by decide)).1 (by decide)
  · have h := (C10_png_filter Api.sampleRecoveryEntries [] "job1" ["b.png", "a.png", "c.png"]
      10 20 (by decide) (by decide)).2
    have hfind := ((Api.load_existing_lookup Api.sampleRecoveryEntries [] "job1"
      ["b.png", "a.png", "c.png"] 10 20 (by decide) (by decide)).1 (by decide)).1
    exact (h _ hfind).2.1

/-- Witness for C6: the frame property evaluated on a store holding one
failed job and a permanently failing target. -/
theorem C6_callback_frame_witness :
    (Api.send_callback [Api.sampleFailedTask] "t1" Api.targetAlwaysExn 0).store
        = [Api.sampleFailedTask]
    ∧ Api.findTask (Api.send_callback [Api.sampleFailedTask] "t1" Api.targetAlwaysExn 0).store "t1"
        = some Api.sampleFailedTask :=
  C6_callback_frame [Api.sampleFailedTask] "t1" Api.targetAlwaysExn 0 Api.sampleFailedTask
    (by decide) (by decide)

/-- Counterexample to C8 as stated: the `progress` key is present in the
record from the moment `task_data` is built
(`websocket_server_v2.py:72-86`), so a reachable store produced by one
admitted submission holds a job whose status is `queued` — neither
`processing` nor `completed` — while its `progress` is (defined and equal
to) `0`. -/
theorem C8_counterexample :
    V2.Reachable (V2.handle_start_ppt_processing [] 1 "http://h/a.pptx" "deck"
        1920 1080 "images").1
    ∧ V2.findTask (V2.handle_start_ppt_processing [] 1 "http://h/a.pptx" "deck"
        1920 1080 "images").1 1
        = some { V2.newTaskData 1 "http://h/a.pptx" "deck" 1920 1080 "images" with
            status := .queued }
    ∧ ({ V2.newTaskData 1 "http://h/a.pptx" "deck" 1920 1080 "images" with
          status := .queued } : V2.Task).progress = 0
    ∧ ¬(({ V2.newTaskData 1 "http://h/a.pptx" "deck" 1920 1080 "images" with
          status := .queued } : V2.Task).status = .processing
        ∨ ({ V2.newTaskData 1 "http://h/a.pptx" "deck" 1920 1080 "images" with
          status := .queued } : V2.Task).status = .completed) := by
  refine ⟨Relation.ReflTransGen.single
    (V2.Step.submit [] 1 "http://h/a.pptx" "deck" 1920 1080 "images"),
    by decide, rfl, by decide⟩

/-- C8 (amended): `progress` is present from creation with value `0` (and
retained across `failed`), rather than only in `{processing, completed}`;
what does hold is monotonicity and the completion value: along the v2 job
lifecycle the record's progress values are non-decreasing and bounded by
100 for every pipeline outcome; the success-branch record update — the
only code writing `completed` — simultaneously sets `progress := 100`; and
the progress percentages the pipeline feeds to its progress callback
(10, 30, 40, 60, 70, the per-image upload percentages, 100) form a
non-decreasing sequence within `[0, 100]` for every image count. -/
theorem C8_progress :
    (∀ (uuid : Nat) (url name : String) (w h : Nat) (bucket : String)
        (outcome : V2.PipeOutcome),
      List.Chain' (· ≤ ·) (V2.jobProgressTrace uuid url name w h bucket outcome)
      ∧ ∀ x ∈ V2.jobProgressTrace uuid url name w h bucket outcome, x ≤ 100)
    ∧ (∀ (r : Pipe.PPTMinioResult) (t : V2.Task),
        (V2.completeTask r t).status = .completed ∧ (V2.completeTask r t).progress = 100)
    ∧ (∀ n : Nat, List.Chain' (· ≤ ·) (Pipe.minioProgressSeq n)
        ∧ ∀ x ∈ Pipe.minioProgressSeq n, x ≤ 100) := by
  refine ⟨?_, fun r t => ⟨rfl, rfl⟩, fun n => ⟨Pipe.minio_chain n, Pipe.minio_bound n⟩⟩
  intro uuid url name w h bucket outcome
  have hchain : List.Chain' (· ≤ ·) ([0, 0, 0, 0] : List Nat) := by
    refine List.chain'_cons.mpr ⟨Nat.le_refl 0, ?_⟩
    refine List.chain'_cons.mpr ⟨Nat.le_refl 0, ?_⟩
    exact List.chain'_cons.mpr ⟨Nat.le_refl 0, List.chain'_singleton 0⟩
  have hmem : ∀ x ∈ ([0, 0, 0, 0] : List Nat), x ≤ 100 := by
    intro x hx
    simp only [List.mem_cons, List.not_mem_nil, or_false] at hx
    rcases hx with h | h | h | h <;> omega
  cases outcome with
  | raises e => exact ⟨hchain, hmem⟩
  | returns r => exact ⟨hchain, hmem⟩

/-- Witness for C8: the bound conclusion evaluated on a concrete lifecycle
trace value and on the pipeline progress value `95` for a three-image
upload. -/
theorem C8_progress_witness :
    ((0 : Nat) ∈ V2.jobProgressTrace 1 "u" "n" 1920 1080 "images" (.raises "x")
      ∧ (0 : Nat) ≤ 100)
    ∧ ((95 : Nat) ∈ Pipe.minioProgressSeq 3 ∧ (95 : Nat) ≤ 100) :=
  ⟨⟨by decide, (C8_progress.1 1 "u" "n" 1920 1080 "images" (.raises "x")).2 0 (by decide)⟩,
   ⟨by decide, (C8_progress.2.2 3).2 95 (by decide)⟩⟩

/-- Counterexample to C9 as stated: an otherwise valid submission (file
part present, non-empty allowed filename) that supplies no `callback_url`
is not accepted — `upload_file` (`api.py:200-202`) rejects it with HTTP
400 `callback_url is required` before any task record is created. -/
theorem C9_counterexample :
    Api.upload_file
        { has_file_part := true
          filename := "deck.pptx"
          width := 1920
          height := 1080
          callback_url := none } "t1" 1000
      = (none, .rejected 400 "callback_url is required")
    ∧ Api.allowed_file "deck.pptx" = true := by
  refine ⟨by decide, by decide⟩

/-- C9 (amended): the HTTP API makes the callback target mandatory at
submission — a valid upload without one (or with an empty one) is rejected
with 400 and no job record is created; only the worker treats the callback
as optional: `process_ppt_task` attempts delivery exactly when a callback
url was passed, and it runs to a terminal state either way (in this
embedding the terminal state is always `failed`; see C3). -/
theorem C9_callback_required :
    (∀ (req : Api.UploadRequest) (task_id : String) (now : Nat),
      req.has_file_part = true → req.filename ≠ "" → Api.allowed_file req.filename = true →
      req.callback_url = none →
      Api.upload_file req task_id now = (none, .rejected 400 "callback_url is required"))
    ∧ (∀ (t : Api.Task) (outcome : Api.WorkerOutcome) (now : Nat),
        (Api.process_ppt_task t outcome now).2 = t.callback_url.isSome)
    ∧ (∀ (t : Api.Task) (outcome : Api.WorkerOutcome) (now : Nat),
        ((Api.process_ppt_task t outcome now).1.getLast?.map Api.Task.status).all
          Status.isTerminal = true) := by
  refine ⟨?_, fun t outcome now => rfl, ?_⟩
  · intro req task_id now h1 h2 h3 h4
    have h2' : (req.filename == "") = false := beq_eq_false_iff_ne.mpr h2
    rw [Api.upload_file]
    simp [h1, h2', h3, h4]
  · intro t outcome now
    cases outcome with
    | raises e => rfl
    | returns r => rfl

/-- Witness for C9: the rejection conclusion applied to a concrete valid
upload without a callback url, plus the worker conclusions on a task
record without one. -/
theorem C9_callback_required_witness :
    Api.upload_file
        { has_file_part := true
          filename := "slides.PPT"
          width := 800
          height := 600
          callback_url := none } "t9" 42
      = (none, .rejected 400 "callback_url is required")
    ∧ (Api.process_ppt_task { Api.samplePendingTask with callback_url := none }
        (.raises "boom") 42).2 = ({ Api.samplePendingTask with
          callback_url := none } : Api.Task).callback_url.isSome := by
  constructor
  · exact C9_callback_required.1
      { has_file_part := true
        filename := "slides.PPT"
        width := 800
        height := 600
        callback_url := none } "t9" 42 rfl (by decide) (by decide) rfl
  · exact C9_callback_required.2.1 { Api.samplePendingTask with callback_url := none }
      (.raises "boom") 42

end PPT2IMG
